import Mathlib

/-!
Verification of the CoPilot backend (`main.py`) against its specification.

The development shallowly embeds the FastAPI handlers and the reply
generator of `main.py`, together with the document-store adapter
(`database.py`) and record schemas (`schemas.py`), which are repository
modules referenced by `main.py` but whose sources are not available here;
those two are modelled from the specification (section 4.1 and section 3).
The document store is modelled as append-only per-collection lists with a
logical clock standing for the wall-clock timestamps and a counter
generating fresh ObjectId-style identifiers.
-/

namespace CoPilot

/-! ### Python string primitives used by `main.py` -/

/-- ASCII and common Unicode whitespace, the characters removed by Python
`str.strip()` and used as separators by `str.split()` with no argument. -/
def pyIsSpace (c : Char) : Bool :=
  c = ' ' || c = '\t' || c = '\n' || c = '\r' || c = '\x0b' || c = '\x0c' ||
  ('\x1c' ≤ c && c ≤ '\x1f') || c = '\x85' || c = '\xa0' || c = ' ' ||
  (' ' ≤ c && c ≤ ' ') ||
  c = ' ' || c = ' ' || c = ' ' || c = ' ' || c = '　'

/-- Python `str.strip()`: drop leading and trailing whitespace. -/
def pyStrip (s : String) : String :=
  String.mk (((s.data.dropWhile pyIsSpace).reverse.dropWhile pyIsSpace).reverse)

/-- Accumulator pass for `pySplit`: `acc` holds the reversed characters
of the word currently being read. -/
def pySplitAux (p : Char → Bool) : List Char → List Char → List String
  | [], acc => if acc.isEmpty then [] else [String.mk acc.reverse]
  | c :: cs, acc =>
    if p c then
      (if acc.isEmpty then [] else [String.mk acc.reverse]) ++ pySplitAux p cs []
    else
      pySplitAux p cs (c :: acc)

/-- Python `str.split()` with no argument: split on runs of whitespace,
discarding empty pieces. -/
def pySplit (s : String) : List String :=
  pySplitAux pyIsSpace s.data []

/-- Python slicing `s[:n]`: the first `n` characters (code points). -/
def pyTake (s : String) (n : Nat) : String :=
  String.mk (s.data.take n)

/-- Python `str.capitalize()`: first character upper-cased, the rest
lower-cased (ASCII case mapping suffices for the claims considered). -/
def pyCapitalize (s : String) : String :=
  match s.data with
  | [] => ""
  | c :: rest => String.mk (c.toUpper :: rest.map Char.toLower)

/-- Python `str.lower()` (ASCII case mapping). -/
def pyLower (s : String) : String :=
  String.mk (s.data.map Char.toLower)

/-! ### JSON-like values

The handlers move loosely-typed dict/list payloads (message `meta`,
preview `content`); they are modelled by a small JSON value type. -/

inductive Json where
  | str : String → Json
  | num : Nat → Json
  | arr : List Json → Json
  | obj : List (String × Json) → Json

/-- Python truthiness of a JSON-like value: empty strings, zero, empty
lists and empty dicts are falsy (used for `if result.get("preview")`). -/
def jsonTruthy : Json → Bool
  | .str s => !s.isEmpty
  | .num n => n ≠ 0
  | .arr l => !l.isEmpty
  | .obj l => !l.isEmpty

/-- Dict-style field lookup on a JSON object. -/
def jsonGet (j : Json) (key : String) : Option Json :=
  match j with
  | .obj fields => (fields.find? (fun f => f.1 == key)).map (fun f => f.2)
  | _ => none

/-! ### The reply generator (`_generate_assistant_reply`) -/

/-- Result of `_generate_assistant_reply`: a dict with keys `text` and
`preview`, both present in every branch of the source. -/
structure GenResult where
  text : String
  preview : Json

/-- `_generate_assistant_reply(mode, prompt)` from `main.py` lines 98-150.
The trailing `else` branch of the source is the `jobs` template.  In the
`jobs` branch the source indexes `prompt.split()[0]` only under the guard
`prompt.strip()`, where the split list is provably non-empty, so the
`headD` default is never consulted. -/
def generateAssistantReply (mode : String) (prompt : String) : GenResult :=
  if mode = "resume" then
    { text := "I\x27ve drafted a professional summary and key bullet points based on your input. You can ask me to refine tone, quantify impact, or tailor to specific roles.",
      preview := Json.obj [
        ("type", Json.str "resume"),
        ("summary", Json.str (pyCapitalize (pyStrip prompt) ++ " professional with a track record of delivering measurable outcomes.")),
        ("sections", Json.arr [
          Json.obj [
            ("title", Json.str "Highlights"),
            ("items", Json.arr [
              Json.str ("Led initiatives related to " ++ pyTake prompt 60 ++ "..."),
              Json.str "Improved efficiency by 20% through process optimization",
              Json.str "Collaborated across teams to deliver on-time projects"])]])] }
  else if mode = "interview" then
    let topics := ((pySplit prompt).filter (fun w => w.length > 3)).take 3
    let questions := [
      "Tell me about a time you worked with " ++
        (match topics with | [] => "a cross-functional team" | t :: _ => t) ++ ".",
      "How would you approach " ++
        (if h : 1 < topics.length then topics[1] else "prioritizing conflicting deadlines") ++ "?",
      "Describe a challenging " ++
        (if h : 2 < topics.length then topics[2] else "project") ++ " and your impact."]
    { text := "Here are tailored practice questions and guidance. Ask me to generate follow-ups or score your answers.",
      preview := Json.obj [
        ("type", Json.str "interview"),
        ("questions", Json.arr (questions.map Json.str)),
        ("tips", Json.arr [
          Json.str "Use STAR format (Situation, Task, Action, Result)",
          Json.str "Quantify impact and highlight collaboration",
          Json.str "Tie answers back to role requirements"])] }
  else
    let keyword := if pyStrip prompt ≠ "" then (pySplit prompt).headD "Role" else "Role"
    let jobs := [
      Json.obj [("title", Json.str (pyCapitalize keyword ++ " Specialist")),
                ("company", Json.str "Acme Corp"), ("location", Json.str "Remote"),
                ("match", Json.num 92)],
      Json.obj [("title", Json.str ("Senior " ++ pyCapitalize keyword)),
                ("company", Json.str "Nimbus"), ("location", Json.str "NYC, NY"),
                ("match", Json.num 88)],
      Json.obj [("title", Json.str (pyCapitalize keyword ++ " Analyst")),
                ("company", Json.str "Orbit Labs"), ("location", Json.str "Austin, TX"),
                ("match", Json.num 83)]]
    { text := "I found a few matching roles. Ask me to tailor your resume or draft outreach messages.",
      preview := Json.obj [
        ("type", Json.str "jobs"),
        ("results", Json.arr jobs)] }

/-! ### Document store and record schemas

`database.py` and `schemas.py` are referenced by `main.py` but their
sources are not part of this checkout; they are modelled from the
specification (section 3 "Data model" and section 4.1 "Document Store
Adapter").  Records are kept in append-only lists (store-native order =
insertion order, which §3 names creation order), ids come from a counter
rendered as a 24-character lowercase hex string (the string form of a
Mongo ObjectId), and created_at is a logical clock that advances at every
timestamped write. -/

/-- Modelled from the spec: a stored Session record (§3), as written by
`create_session` through `schemas.Session` plus store id and timestamp. -/
structure SessionDoc where
  id : String
  user_id : Option String
  mode : String
  title : Option String
  status : String
  created_at : Nat
  deriving Repr, DecidableEq

/-- Modelled from the spec: a stored Message record (§3), as written
through `schemas.Message`; `meta` is the optional key-value mapping,
empty when the handler passes none. -/
structure MessageDoc where
  id : String
  session_id : String
  role : String
  content : String
  meta : List (String × String)
  created_at : Nat
  deriving Repr, DecidableEq

/-- Modelled from the spec: a stored Preview record (§3), as written by
`chat` through `schemas.Preview` plus explicit timestamps. -/
structure PreviewDoc where
  id : String
  session_id : String
  mode : String
  content : Json
  created_at : Nat

/-- The three collections used by the handlers, with the id counter and
the logical clock. -/
structure Store where
  sessions : List SessionDoc
  messages : List MessageDoc
  previews : List PreviewDoc
  nextId : Nat
  clock : Nat

/-- The empty store at process start. -/
def emptyStore : Store := ⟨[], [], [], 0, 0⟩

/-- Render counter value `n` as a 24-character lowercase hex string, the
string form of a store-generated ObjectId. -/
def oidOf (n : Nat) : String :=
  let ds := Nat.toDigits 16 n
  String.mk (List.replicate (24 - ds.length) '0' ++ ds)

/-- A character bson accepts inside an ObjectId hex string. -/
def isHexChar (c : Char) : Bool :=
  c.isDigit || ('a' ≤ c && c ≤ 'f') || ('A' ≤ c && c ≤ 'F')

/-- `bson.ObjectId(s)`: accepts exactly the 24-character hex strings
(normalising case), raising `InvalidId` otherwise — modelled as `none`. -/
def parseOid (s : String) : Option String :=
  if s.length = 24 && s.data.all isHexChar then some (pyLower s) else none

/-- Modelled from the spec: `database.create_document("session", record)`
(§4.1) — stamp timestamps, insert, return the new id as a string. -/
def createSessionDoc (st : Store) (user_id : Option String) (mode : String)
    (title : Option String) (status : String) : Store × String :=
  let id := oidOf st.nextId
  (⟨st.sessions ++ [⟨id, user_id, mode, title, status, st.clock⟩],
    st.messages, st.previews, st.nextId + 1, st.clock + 1⟩, id)

/-- Modelled from the spec: `database.create_document("message", record)`
(§4.1) — stamp timestamps, insert, return the new id as a string. -/
def createMessageDoc (st : Store) (sid role content : String)
    (meta : List (String × String)) : Store × String :=
  let id := oidOf st.nextId
  (⟨st.sessions, st.messages ++ [⟨id, sid, role, content, meta, st.clock⟩],
    st.previews, st.nextId + 1, st.clock + 1⟩, id)

/-- `db["preview"].insert_one(preview_doc)` with the handler-stamped
timestamps (`chat`, `main.py` lines 209-212). -/
def insertPreviewDoc (st : Store) (sid mode : String) (content : Json) :
    Store × String :=
  let id := oidOf st.nextId
  (⟨st.sessions, st.messages,
    st.previews ++ [⟨id, sid, mode, content, st.clock⟩],
    st.nextId + 1, st.clock + 1⟩, id)

/-- Modelled from the spec: `database.get_documents("message", filterized
by session_id)` (§4.1) — all matching records in store-native order. -/
def getMessageDocs (st : Store) (sid : String) : List MessageDoc :=
  st.messages.filter (fun m => m.session_id == sid)

/-! ### The handlers of `main.py` -/

/-- `create_session` (`main.py` lines 153-169): write the Session, then
the seed system Message, and return the new session id. -/
def create_session (st : Store) (user_id : Option String) (mode : String)
    (title : Option String) : Store × String :=
  let r := createSessionDoc st user_id mode title "active"
  let st1 := r.1
  let session_id := r.2
  let st2 := (createMessageDoc st1 session_id "system"
    ("CoPilot session created for " ++ mode ++ " mode.") []).1
  (st2, session_id)

/-- `list_messages` (`main.py` lines 172-179): all messages matching the
session_id; id coercion is the identity in this model. -/
def list_messages (st : Store) (sid : String) : List MessageDoc :=
  getMessageDocs st sid

/-- Outcomes of the `chat` handler that abort before any write:
`notFound` is the explicit 404 `HTTPException`; `invalidId` is the
`bson.errors.InvalidId` raised by `ObjectId(session_id)` on a malformed
id, which propagates uncaught (a 500, not a 404). -/
inductive ChatError where
  | notFound
  | invalidId
  deriving Repr, DecidableEq

/-- The `ChatResponse` body (`main.py` lines 85-88, 218-222). -/
structure ChatResponse where
  session_id : String
  messages : List MessageDoc
  preview : Option Json

/-- The write-and-respond part of `chat` once the session is found
(`main.py` lines 189-222). -/
def chatBody (st : Store) (sid content : String) (sess : SessionDoc) :
    Store × Except ChatError ChatResponse :=
  let mode := sess.mode
  let st1 := (createMessageDoc st sid "user" content []).1
  let result := generateAssistantReply mode content
  let st2 := (createMessageDoc st1 sid "assistant" result.text [("mode", mode)]).1
  let st3 := if jsonTruthy result.preview then (insertPreviewDoc st2 sid mode result.preview).1 else st2
  let msgs := getMessageDocs st3 sid
  (st3, Except.ok ⟨sid, msgs, some result.preview⟩)

/-- `chat` (`main.py` lines 182-222).  `ObjectId(session_id)` is always
evaluated (the `hasattr(ObjectId, "__call__")` guard is true for both
`bson.ObjectId` and the `str` fallback); with bson present it raises
`InvalidId` on a malformed id before any lookup or write. -/
def chat (st : Store) (sid content : String) : Store × Except ChatError ChatResponse :=
  match parseOid sid with
  | none => (st, Except.error ChatError.invalidId)
  | some o =>
    match st.sessions.find? (fun s => s.id == o) with
    | none => (st, Except.error ChatError.notFound)
    | some sess => chatBody st sid content sess

/-- Keep the later of two preview candidates by `created_at` (the
`sort=created_at descending` of `find_one`; the logical clock makes
timestamps distinct, so tie order is immaterial). -/
def pickLatest : Option PreviewDoc → PreviewDoc → Option PreviewDoc
  | none, d => some d
  | some b, d => if b.created_at < d.created_at then some d else some b

/-- `get_preview` (`main.py` lines 225-231): latest Preview content for
the session by `created_at` descending, `none` when no preview exists. -/
def get_preview (st : Store) (sid : String) : Option Json :=
  ((st.previews.filter (fun pd => pd.session_id == sid)).foldl pickLatest none).map
    (fun pd => pd.content)

/-! ### Helper lemmas -/

/-- Every branch of the generator returns a truthy (non-empty dict)
preview, so the `if result.get("preview")` guard in `chat` always runs. -/
theorem jsonTruthy_generate (m p : String) :
    jsonTruthy (generateAssistantReply m p).preview = true := by
  unfold generateAssistantReply
  split
  · rfl
  · split <;> rfl

/-- The user message document written by `chat` on store `st`. -/
def userDocOf (st : Store) (sid c : String) : MessageDoc :=
  ⟨oidOf st.nextId, sid, "user", c, [], st.clock⟩

/-- The assistant message document written by `chat` on store `st`. -/
def asstDocOf (st : Store) (sid mode c : String) : MessageDoc :=
  ⟨oidOf (st.nextId + 1), sid, "assistant", (generateAssistantReply mode c).text,
    [("mode", mode)], st.clock + 1⟩

/-- The preview document written by `chat` on store `st`. -/
def previewDocOf (st : Store) (sid mode c : String) : PreviewDoc :=
  ⟨oidOf (st.nextId + 2), sid, mode, (generateAssistantReply mode c).preview, st.clock + 2⟩

/-- Full description of a successful `chat` call: the two message writes,
the preview write, and the re-fetched response. -/
theorem chat_ok (st : Store) (sid c o : String) (sess : SessionDoc)
    (h1 : parseOid sid = some o)
    (h2 : st.sessions.find? (fun s => s.id == o) = some sess) :
    chat st sid c =
      (⟨st.sessions,
        st.messages ++ [userDocOf st sid c, asstDocOf st sid sess.mode c],
        st.previews ++ [previewDocOf st sid sess.mode c],
        st.nextId + 1 + 1 + 1, st.clock + 1 + 1 + 1⟩,
       Except.ok ⟨sid,
         st.messages.filter (fun m => m.session_id == sid) ++
           [userDocOf st sid c, asstDocOf st sid sess.mode c],
         some (generateAssistantReply sess.mode c).preview⟩) := by
  unfold chat
  simp only [h1, h2]
  simp only [chatBody, jsonTruthy_generate, if_true]
  simp only [createMessageDoc, insertPreviewDoc, getMessageDocs, userDocOf, asstDocOf,
    previewDocOf, List.filter_append]
  simp [List.filter]

/-- If every element of `xs` has a timestamp at most that of `b`, the fold
keeps `b`. -/
theorem foldl_pickLatest_const (xs : List PreviewDoc) (b : PreviewDoc)
    (h : ∀ qd ∈ xs, qd.created_at ≤ b.created_at) :
    xs.foldl pickLatest (some b) = some b := by
  induction xs with
  | nil => rfl
  | cons x xs ih =>
    have hx := h x (List.mem_cons_self x xs)
    simp only [List.foldl_cons]
    rw [show pickLatest (some b) x = some b by
      simp only [pickLatest]
      rw [if_neg (by omega)]]
    exact ih (fun qd hq => h qd (List.mem_cons_of_mem x hq))

/-- The fold selects the element with the strictly greatest timestamp. -/
theorem foldl_pickLatest_max (xs : List PreviewDoc) :
    ∀ (acc : Option PreviewDoc) (pd : PreviewDoc), pd ∈ xs →
    (∀ qd ∈ xs, qd ≠ pd → qd.created_at < pd.created_at) →
    (acc = none ∨ ∃ b, acc = some b ∧ b.created_at < pd.created_at) →
    xs.foldl pickLatest acc = some pd := by
  induction xs with
  | nil => intro acc pd hmem; cases hmem
  | cons x xs ih =>
    intro acc pd hmem hmax hacc
    simp only [List.foldl_cons]
    by_cases hx : x = pd
    · subst hx
      have hstep : pickLatest acc x = some x := by
        rcases hacc with h | ⟨b, hb, hlt⟩
        · subst h; rfl
        · subst hb; simp only [pickLatest]; rw [if_pos hlt]
      rw [hstep]
      apply foldl_pickLatest_const
      intro qd hq
      by_cases hqx : qd = x
      · subst hqx; exact Nat.le_refl _
      · exact Nat.le_of_lt (hmax qd (List.mem_cons_of_mem x hq) hqx)
    · have hmem' : pd ∈ xs := by
        rcases List.mem_cons.mp hmem with h | h
        · exact absurd h.symm hx
        · exact h
      have hxlt : x.created_at < pd.created_at := hmax x (List.mem_cons_self x xs) hx
      apply ih _ pd hmem' (fun qd hq hne => hmax qd (List.mem_cons_of_mem x hq) hne)
      rcases hacc with h | ⟨b, hb, hlt⟩
      · subst h; exact Or.inr ⟨x, rfl, hxlt⟩
      · subst hb
        simp only [pickLatest]
        by_cases hc : b.created_at < x.created_at
        · rw [if_pos hc]; exact Or.inr ⟨x, rfl, hxlt⟩
        · rw [if_neg hc]; exact Or.inr ⟨b, rfl, hlt⟩

/-! ### Claim C1 -/

/-- C1, counterexample: on the empty store (so the session id `"x"`
resolves to no stored Session), `chat` does not yield the NotFound error
the claim requires: `ObjectId("x")` raises `InvalidId`, which escapes as
a server error (500), not the 404-equivalent. -/
theorem chat_unknown_sid_counterexample :
    emptyStore.sessions = []
    ∧ (chat emptyStore "x" "hi").2 = Except.error ChatError.invalidId
    ∧ (chat emptyStore "x" "hi").2 ≠ Except.error ChatError.notFound := by
  refine ⟨rfl, rfl, ?_⟩
  intro h
  rw [show (chat emptyStore "x" "hi").2 = Except.error ChatError.invalidId from rfl] at h
  exact ChatError.noConfusion (Except.error.inj h)

/-- C1, amended: a session_id that is a well-formed ObjectId string but
resolves to no stored Session yields NotFound with the store unchanged;
a malformed session_id instead ends in the uncaught id-parse error, also
with the store unchanged. -/
theorem chat_unknown_sid_amended (st : Store) (sid c : String) :
    (parseOid sid = none → chat st sid c = (st, Except.error ChatError.invalidId))
    ∧ (∀ o, parseOid sid = some o →
        st.sessions.find? (fun s => s.id == o) = none →
        chat st sid c = (st, Except.error ChatError.notFound)) := by
  constructor
  · intro h
    unfold chat
    simp only [h]
  · intro o h1 h2
    unfold chat
    simp only [h1, h2]

/-- C1, witness: a syntactically valid but unknown ObjectId on the empty
store gets the NotFound error and leaves the store untouched. -/
theorem chat_unknown_sid_amended_witness :
    chat emptyStore "aaaaaaaaaaaaaaaaaaaaaaaa" "hi"
      = (emptyStore, Except.error ChatError.notFound) :=
  (chat_unknown_sid_amended emptyStore "aaaaaaaaaaaaaaaaaaaaaaaa" "hi").2
    "aaaaaaaaaaaaaaaaaaaaaaaa" rfl rfl

/-! ### Claim C7 -/

/-- C7: the reply generator is a pure function of (mode, prompt) — the
source reads nothing but its two parameters, so it is embedded as a
function, and identical arguments give identical replies and previews. -/
theorem generate_deterministic (m₁ p₁ m₂ p₂ : String)
    (hm : m₁ = m₂) (hp : p₁ = p₂) :
    generateAssistantReply m₁ p₁ = generateAssistantReply m₂ p₂ := by
  subst hm; subst hp; rfl

/-- C7, witness at a concrete mode and prompt. -/
theorem generate_deterministic_witness :
    generateAssistantReply "interview" "scaling search infra"
      = generateAssistantReply "interview" "scaling search infra" :=
  generate_deterministic "interview" "scaling search infra"
    "interview" "scaling search infra" rfl rfl

/-! ### Claim C2 -/

/-- C2: when the session exists, `chat` appends exactly one user message
(with the request content) and one assistant message (with the generated
reply text and `meta` carrying the mode), and the response's re-fetched
message list is the session's pre-existing messages followed by the two
new ones, in creation order. -/
theorem chat_appends_two_messages (st : Store) (sid c o : String) (sess : SessionDoc)
    (h1 : parseOid sid = some o)
    (h2 : st.sessions.find? (fun s => s.id == o) = some sess) :
    ∃ u a st' resp,
      chat st sid c = (st', Except.ok resp)
      ∧ st'.messages = st.messages ++ [u, a]
      ∧ u.role = "user" ∧ u.content = c ∧ u.session_id = sid ∧ u.meta = []
      ∧ a.role = "assistant" ∧ a.content = (generateAssistantReply sess.mode c).text
      ∧ a.session_id = sid ∧ a.meta = [("mode", sess.mode)]
      ∧ resp.session_id = sid
      ∧ resp.messages
          = st.messages.filter (fun m => m.session_id == sid) ++ [u, a] := by
  refine ⟨userDocOf st sid c, asstDocOf st sid sess.mode c, _, _,
    chat_ok st sid c o sess h1 h2, rfl, rfl, rfl, rfl, rfl, rfl, rfl, rfl, rfl, rfl, rfl⟩

/-- C2, witness: create a resume session on the empty store and chat
once; the store then holds the seed message plus the two new ones, and
the response repeats the seed message followed by the pair. -/
theorem chat_appends_two_messages_witness :
    ∃ u a st' resp,
      chat (create_session emptyStore none "resume" none).1
          (create_session emptyStore none "resume" none).2 "hello"
        = (st', Except.ok resp)
      ∧ st'.messages = (create_session emptyStore none "resume" none).1.messages ++ [u, a]
      ∧ u.role = "user" ∧ u.content = "hello"
      ∧ u.session_id = (create_session emptyStore none "resume" none).2 ∧ u.meta = []
      ∧ a.role = "assistant"
      ∧ a.content = (generateAssistantReply "resume" "hello").text
      ∧ a.session_id = (create_session emptyStore none "resume" none).2
      ∧ a.meta = [("mode", "resume")]
      ∧ resp.session_id = (create_session emptyStore none "resume" none).2
      ∧ resp.messages
          = (create_session emptyStore none "resume" none).1.messages.filter
              (fun m => m.session_id == (create_session emptyStore none "resume" none).2)
            ++ [u, a] :=
  chat_appends_two_messages (create_session emptyStore none "resume" none).1
    (create_session emptyStore none "resume" none).2 "hello"
    "000000000000000000000000"
    ⟨"000000000000000000000000", none, "resume", none, "active", 0⟩ rfl rfl

/-! ### Claim C8 -/

/-- C8: the Preview record written by `chat` copies the mode read from
the session document in the same call, and the assistant message written
in that call carries the same mode in its meta mapping. -/
theorem chat_preview_mode_invariant (st : Store) (sid c o : String) (sess : SessionDoc)
    (h1 : parseOid sid = some o)
    (h2 : st.sessions.find? (fun s => s.id == o) = some sess) :
    ∃ pd a st' resp,
      chat st sid c = (st', Except.ok resp)
      ∧ st'.previews = st.previews ++ [pd]
      ∧ pd.mode = sess.mode
      ∧ pd.session_id = sid
      ∧ pd.content = (generateAssistantReply sess.mode c).preview
      ∧ (∃ u, st'.messages = st.messages ++ [u, a])
      ∧ a.role = "assistant"
      ∧ a.meta = [("mode", sess.mode)] := by
  refine ⟨previewDocOf st sid sess.mode c, asstDocOf st sid sess.mode c, _, _,
    chat_ok st sid c o sess h1 h2, rfl, rfl, rfl, rfl, ⟨userDocOf st sid c, rfl⟩, rfl, rfl⟩

/-- C8, witness: on an interview-mode session, the persisted preview and
the assistant meta both carry mode "interview". -/
theorem chat_preview_mode_invariant_witness :
    ∃ pd a st' resp,
      chat (create_session emptyStore none "interview" none).1
          (create_session emptyStore none "interview" none).2 "scaling teams"
        = (st', Except.ok resp)
      ∧ st'.previews = (create_session emptyStore none "interview" none).1.previews ++ [pd]
      ∧ pd.mode = "interview"
      ∧ pd.session_id = (create_session emptyStore none "interview" none).2
      ∧ pd.content = (generateAssistantReply "interview" "scaling teams").preview
      ∧ (∃ u, st'.messages
          = (create_session emptyStore none "interview" none).1.messages ++ [u, a])
      ∧ a.role = "assistant"
      ∧ a.meta = [("mode", "interview")] :=
  chat_preview_mode_invariant (create_session emptyStore none "interview" none).1
    (create_session emptyStore none "interview" none).2 "scaling teams"
    "000000000000000000000000"
    ⟨"000000000000000000000000", none, "interview", none, "active", 0⟩ rfl rfl

/-! ### Claim C6 -/

/-- C6: for a valid mode, `create_session` writes one Session record and
then one seed Message with role "system" and the fixed content, so that
`list_messages` on the new session id returns exactly that one system
message (the new id is store-generated, hence unreferenced by any
pre-existing message). -/
theorem create_session_seeds_system_message (st : Store) (uid : Option String)
    (m : String) (t : Option String)
    (hm : m = "resume" ∨ m = "interview" ∨ m = "jobs")
    (hfresh : ∀ msg ∈ st.messages, msg.session_id ≠ oidOf st.nextId) :
    ∃ seed : MessageDoc,
      (create_session st uid m t).2 = oidOf st.nextId
      ∧ (create_session st uid m t).1.sessions
          = st.sessions ++ [⟨oidOf st.nextId, uid, m, t, "active", st.clock⟩]
      ∧ (create_session st uid m t).1.messages = st.messages ++ [seed]
      ∧ seed.role = "system"
      ∧ seed.content = "CoPilot session created for " ++ m ++ " mode."
      ∧ seed.session_id = oidOf st.nextId
      ∧ list_messages (create_session st uid m t).1 (create_session st uid m t).2
          = [seed] := by
  refine ⟨⟨oidOf (st.nextId + 1), oidOf st.nextId, "system",
    "CoPilot session created for " ++ m ++ " mode.", [], st.clock + 1⟩,
    rfl, rfl, rfl, rfl, rfl, rfl, ?_⟩
  unfold list_messages getMessageDocs create_session createSessionDoc createMessageDoc
  simp only [List.filter_append]
  rw [show st.messages.filter (fun msg => msg.session_id == oidOf st.nextId) = [] by
    rw [List.filter_eq_nil_iff]
    intro msg hmsg
    simpa using hfresh msg hmsg]
  simp [List.filter]

/-- C6, witness: on the empty store with mode "jobs", the new session's
message list is exactly the one system seed message. -/
theorem create_session_seeds_system_message_witness :
    ∃ seed : MessageDoc,
      (create_session emptyStore none "jobs" none).2 = oidOf emptyStore.nextId
      ∧ (create_session emptyStore none "jobs" none).1.sessions
          = emptyStore.sessions
            ++ [⟨oidOf emptyStore.nextId, none, "jobs", none, "active", emptyStore.clock⟩]
      ∧ (create_session emptyStore none "jobs" none).1.messages
          = emptyStore.messages ++ [seed]
      ∧ seed.role = "system"
      ∧ seed.content = "CoPilot session created for " ++ "jobs" ++ " mode."
      ∧ seed.session_id = oidOf emptyStore.nextId
      ∧ list_messages (create_session emptyStore none "jobs" none).1
          (create_session emptyStore none "jobs" none).2 = [seed] :=
  create_session_seeds_system_message emptyStore none "jobs" none
    (Or.inr (Or.inr rfl)) (by intro msg hmsg; cases hmsg)

/-! ### Claim C3 -/

/-- C3: the resume-mode preview's summary is the capitalized, trimmed
prompt followed by the fixed suffix, and its single "Highlights" section
holds exactly 3 bullet strings, the first of which embeds the first 60
characters of the prompt. -/
theorem resume_preview_shape (p : String) :
    ∃ s₁ s₂ s₃ : String,
      jsonGet (generateAssistantReply "resume" p).preview "summary"
        = some (Json.str (pyCapitalize (pyStrip p)
            ++ " professional with a track record of delivering measurable outcomes."))
      ∧ jsonGet (generateAssistantReply "resume" p).preview "sections"
          = some (Json.arr [Json.obj [("title", Json.str "Highlights"),
              ("items", Json.arr [Json.str s₁, Json.str s₂, Json.str s₃])]])
      ∧ (∃ pre post, s₁ = pre ++ pyTake p 60 ++ post) := by
  refine ⟨"Led initiatives related to " ++ pyTake p 60 ++ "...",
    "Improved efficiency by 20% through process optimization",
    "Collaborated across teams to deliver on-time projects",
    rfl, rfl, "Led initiatives related to ", "...", rfl⟩

/-! ### Claim C4 -/

/-- C4, counterexample: for the prompt "a be it" (only words of length at
most 3), the third interview question substitutes the fallback `project`,
not the phrase `a project` that the claim names: `a project` does not
occur in the generated question at all. -/
theorem interview_fallback_counterexample :
    jsonGet (generateAssistantReply "interview" "a be it").preview "questions"
      = some (Json.arr [
          Json.str "Tell me about a time you worked with a cross-functional team.",
          Json.str "How would you approach prioritizing conflicting deadlines?",
          Json.str "Describe a challenging project and your impact."])
    ∧ ¬ ("a project".data <:+: "Describe a challenging project and your impact.".data)
    ∧ ("a cross-functional team".data
        <:+: "Tell me about a time you worked with a cross-functional team.".data)
    ∧ ("prioritizing conflicting deadlines".data
        <:+: "How would you approach prioritizing conflicting deadlines?".data) :=
  ⟨rfl, by decide, by decide, by decide⟩

/-- C4, amended: interview mode takes at most 3 whitespace tokens of
length > 3 as topics and builds exactly 3 questions from topics[0],
topics[1], topics[2], with fallbacks "a cross-functional team",
"prioritizing conflicting deadlines" and "project" (not "a project");
for a prompt made only of words of length at most 3, all three fallbacks
are used. -/
theorem interview_questions_substitution (p : String) :
    jsonGet (generateAssistantReply "interview" p).preview "questions"
      = some (Json.arr [
          Json.str ("Tell me about a time you worked with "
            ++ (((pySplit p).filter (fun w => w.length > 3)).take 3).getD 0
                "a cross-functional team" ++ "."),
          Json.str ("How would you approach "
            ++ (((pySplit p).filter (fun w => w.length > 3)).take 3).getD 1
                "prioritizing conflicting deadlines" ++ "?"),
          Json.str ("Describe a challenging "
            ++ (((pySplit p).filter (fun w => w.length > 3)).take 3).getD 2
                "project" ++ " and your impact.")])
    ∧ ((∀ w ∈ pySplit p, w.length ≤ 3) →
        jsonGet (generateAssistantReply "interview" p).preview "questions"
          = some (Json.arr [
              Json.str "Tell me about a time you worked with a cross-functional team.",
              Json.str "How would you approach prioritizing conflicting deadlines?",
              Json.str "Describe a challenging project and your impact."])) := by
  have hgen : ∀ q : List String,
      q = ((pySplit p).filter (fun w => w.length > 3)).take 3 →
      jsonGet (generateAssistantReply "interview" p).preview "questions"
        = some (Json.arr [
            Json.str ("Tell me about a time you worked with "
              ++ (match q with | [] => "a cross-functional team" | t :: _ => t) ++ "."),
            Json.str ("How would you approach "
              ++ (if h : 1 < q.length then q[1]
                  else "prioritizing conflicting deadlines") ++ "?"),
            Json.str ("Describe a challenging "
              ++ (if h : 2 < q.length then q[2] else "project")
              ++ " and your impact.")]) := by
    intro q hq
    subst hq
    rfl
  constructor
  · rcases hq : ((pySplit p).filter (fun w => w.length > 3)).take 3
      with _ | ⟨t₀, _ | ⟨t₁, _ | ⟨t₂, rest⟩⟩⟩ <;>
      rw [hgen _ hq.symm, hq] <;> first | rfl | simp [List.getD]
  · intro hshort
    have hempty : ((pySplit p).filter (fun w => w.length > 3)).take 3 = [] := by
      rw [show (pySplit p).filter (fun w => w.length > 3) = [] by
        rw [List.filter_eq_nil_iff]
        intro w hw
        have := hshort w hw
        simp only [decide_eq_true_eq]
        omega]
      rfl
    rw [hgen _ hempty.symm]
    rfl

/-- C4, witness: for the short-word prompt "to do", the fallback form of
all three questions is returned. -/
theorem interview_questions_substitution_witness :
    jsonGet (generateAssistantReply "interview" "to do").preview "questions"
      = some (Json.arr [
          Json.str "Tell me about a time you worked with a cross-functional team.",
          Json.str "How would you approach prioritizing conflicting deadlines?",
          Json.str "Describe a challenging project and your impact."]) :=
  (interview_questions_substitution "to do").2 (by decide)

/-! ### Claim C5 -/

/-- C5: jobs mode takes the first whitespace token of the prompt — or
the literal "Role" for a blank or whitespace-only prompt — as keyword,
capitalizes it, and produces exactly 3 job entries with match scores
92, 88, 83 in that order; for a blank prompt the titles are
"Role Specialist", "Senior Role" and "Role Analyst". -/
theorem jobs_results_shape (p : String) :
    ∃ j₀ j₁ j₂ : Json,
      jsonGet (generateAssistantReply "jobs" p).preview "results"
        = some (Json.arr [j₀, j₁, j₂])
      ∧ jsonGet j₀ "title" = some (Json.str (pyCapitalize
          (if pyStrip p ≠ "" then (pySplit p).headD "Role" else "Role") ++ " Specialist"))
      ∧ jsonGet j₀ "match" = some (Json.num 92)
      ∧ jsonGet j₁ "title" = some (Json.str ("Senior " ++ pyCapitalize
          (if pyStrip p ≠ "" then (pySplit p).headD "Role" else "Role")))
      ∧ jsonGet j₁ "match" = some (Json.num 88)
      ∧ jsonGet j₂ "title" = some (Json.str (pyCapitalize
          (if pyStrip p ≠ "" then (pySplit p).headD "Role" else "Role") ++ " Analyst"))
      ∧ jsonGet j₂ "match" = some (Json.num 83)
      ∧ (pyStrip p = "" →
          jsonGet j₀ "title" = some (Json.str "Role Specialist")
          ∧ jsonGet j₁ "title" = some (Json.str "Senior Role")
          ∧ jsonGet j₂ "title" = some (Json.str "Role Analyst")) := by
  refine ⟨_, _, _, rfl, rfl, rfl, rfl, rfl, rfl, rfl, ?_⟩
  intro hblank
  rw [show (if pyStrip p ≠ "" then (pySplit p).headD "Role" else "Role") = "Role" by
    rw [if_neg]; simp [hblank]]
  exact ⟨rfl, rfl, rfl⟩

/-- C5, witness: a whitespace-only prompt falls back to keyword "Role"
with the three fixed titles and scores 92, 88, 83. -/
theorem jobs_results_shape_witness :
    ∃ j₀ j₁ j₂ : Json,
      jsonGet (generateAssistantReply "jobs" "  ").preview "results"
        = some (Json.arr [j₀, j₁, j₂])
      ∧ jsonGet j₀ "title" = some (Json.str "Role Specialist")
      ∧ jsonGet j₀ "match" = some (Json.num 92)
      ∧ jsonGet j₁ "title" = some (Json.str "Senior Role")
      ∧ jsonGet j₁ "match" = some (Json.num 88)
      ∧ jsonGet j₂ "title" = some (Json.str "Role Analyst")
      ∧ jsonGet j₂ "match" = some (Json.num 83) := by
  obtain ⟨j₀, j₁, j₂, hres, _, hm0, _, hm1, _, hm2, hblank⟩ := jobs_results_shape "  "
  obtain ⟨t₀, t₁, t₂⟩ := hblank rfl
  exact ⟨j₀, j₁, j₂, hres, t₀, hm0, t₁, hm1, t₂, hm2⟩

/-! ### Claim C9 -/

/-- C9: `get_preview` returns the content of the Preview with the
greatest `created_at` among those of the session when one exists, and
`none` (not an error) when none exists; and right after a successful
`chat` call it returns the preview just generated in that call (every
stored timestamp is below the store clock, which only grows). -/
theorem get_preview_latest (st : Store) (sid : String) :
    ((∀ pd ∈ st.previews, pd.session_id ≠ sid) → get_preview st sid = none)
    ∧ (∀ pd ∈ st.previews, pd.session_id = sid →
        (∀ qd ∈ st.previews, qd.session_id = sid → qd ≠ pd →
          qd.created_at < pd.created_at) →
        get_preview st sid = some pd.content)
    ∧ (∀ c o sess, parseOid sid = some o →
        st.sessions.find? (fun s => s.id == o) = some sess →
        (∀ pd ∈ st.previews, pd.created_at < st.clock) →
        get_preview (chat st sid c).1 sid
          = some (generateAssistantReply sess.mode c).preview) := by
  refine ⟨?_, ?_, ?_⟩
  · intro h
    unfold get_preview
    rw [show st.previews.filter (fun pd => pd.session_id == sid) = [] by
      rw [List.filter_eq_nil_iff]
      intro pd hpd
      simpa using h pd hpd]
    rfl
  · intro pd hpd hsid hmax
    unfold get_preview
    rw [foldl_pickLatest_max _ none pd
      (List.mem_filter.mpr ⟨hpd, by simp [hsid]⟩)
      (by
        intro qd hqd hne
        have h' := List.mem_filter.mp hqd
        exact hmax qd h'.1 (by simpa using h'.2) hne)
      (Or.inl rfl)]
    rfl
  · intro c o sess h1 h2 hclock
    have hst : (chat st sid c).1.previews
        = st.previews ++ [previewDocOf st sid sess.mode c] := by
      rw [chat_ok st sid c o sess h1 h2]
    unfold get_preview
    rw [hst, List.filter_append,
      show [previewDocOf st sid sess.mode c].filter (fun pd => pd.session_id == sid)
        = [previewDocOf st sid sess.mode c] by simp [previewDocOf, List.filter],
      foldl_pickLatest_max _ none (previewDocOf st sid sess.mode c)
        (List.mem_append.mpr (Or.inr (by simp)))
        (by
          intro qd hqd hne
          rcases List.mem_append.mp hqd with hq | hq
          · have h' := List.mem_filter.mp hq
            have := hclock qd h'.1
            simp only [previewDocOf]
            omega
          · exact absurd (by simpa using hq) hne)
        (Or.inl rfl)]
    rfl

/-- C9, witness: no preview on a fresh store gives `none`; after one chat
on a new resume session, `get_preview` returns that chat's preview. -/
theorem get_preview_latest_witness :
    get_preview emptyStore "s1" = none
    ∧ get_preview
        (chat (create_session emptyStore none "resume" none).1
          (create_session emptyStore none "resume" none).2 "hello").1
        (create_session emptyStore none "resume" none).2
      = some (generateAssistantReply "resume" "hello").preview := by
  constructor
  · exact (get_preview_latest emptyStore "s1").1 (by intro pd hpd; cases hpd)
  · exact (get_preview_latest (create_session emptyStore none "resume" none).1
      (create_session emptyStore none "resume" none).2).2.2 "hello"
      "000000000000000000000000"
      ⟨"000000000000000000000000", none, "resume", none, "active", 0⟩ rfl rfl
      (by
        intro pd hpd
        simp [create_session, createSessionDoc, createMessageDoc, emptyStore] at hpd)

/-! ### Claim C10 -/

/-- C10: every branch of the reply generator returns a non-empty preview
object, so a successful `chat` call persists exactly one Preview record
and the response's preview field is never null. -/
theorem chat_always_persists_preview (m p : String) (st : Store) (sid c o : String)
    (sess : SessionDoc)
    (h1 : parseOid sid = some o)
    (h2 : st.sessions.find? (fun s => s.id == o) = some sess) :
    (∃ fields, (generateAssistantReply m p).preview = Json.obj fields ∧ fields ≠ [])
    ∧ jsonTruthy (generateAssistantReply m p).preview = true
    ∧ (chat st sid c).1.previews.length = st.previews.length + 1
    ∧ ∃ resp, (chat st sid c).2 = Except.ok resp ∧ resp.preview ≠ none := by
  refine ⟨?_, jsonTruthy_generate m p, ?_, ?_⟩
  · unfold generateAssistantReply
    split
    · exact ⟨_, rfl, by simp⟩
    · split
      · exact ⟨_, rfl, by simp⟩
      · exact ⟨_, rfl, by simp⟩
  · rw [chat_ok st sid c o sess h1 h2]
    simp
  · rw [chat_ok st sid c o sess h1 h2]
    exact ⟨_, rfl, by simp⟩

/-- C10, witness: one preview is persisted and returned for a chat on a
fresh jobs session, and the empty-prompt jobs preview is non-empty. -/
theorem chat_always_persists_preview_witness :
    (∃ fields, (generateAssistantReply "jobs" "").preview = Json.obj fields ∧ fields ≠ [])
    ∧ jsonTruthy (generateAssistantReply "jobs" "").preview = true
    ∧ (chat (create_session emptyStore none "jobs" none).1
        (create_session emptyStore none "jobs" none).2 "find roles").1.previews.length
      = (create_session emptyStore none "jobs" none).1.previews.length + 1
    ∧ ∃ resp, (chat (create_session emptyStore none "jobs" none).1
        (create_session emptyStore none "jobs" none).2 "find roles").2
        = Except.ok resp ∧ resp.preview ≠ none :=
  chat_always_persists_preview "jobs" "" (create_session emptyStore none "jobs" none).1
    (create_session emptyStore none "jobs" none).2 "find roles"
    "000000000000000000000000"
    ⟨"000000000000000000000000", none, "jobs", none, "active", 0⟩ rfl rfl

end CoPilot
